import Mathlib

/-!
Shallow embedding of `scripts/todo.py`, a command-line to-do list manager with
JSON file storage, together with proofs about its task-store operations.

Modelling conventions:
* JSON values are the inductive `Json`; a file on disk either holds text that
  parses to a JSON value (`FileContent.valid j`) or text that is not valid
  JSON (`FileContent.invalid`).  The Python `json` library's `dump`/`load`
  pair is modelled by its contract: `save` records the value it serialized,
  and `load` recovers exactly that value.
* The file system is a map from paths to optional file contents; each command
  is a function from a file system to a result together with the final file
  system, mirroring the load / mutate / save structure of the script.
* Python dictionaries with the nine fixed task keys are represented by the
  record `Task`; `encodeTask`/`decodeTask` relate the record to its JSON
  object form (field lookup by key, as Python's `t["id"]` does).
* Timestamps (`now_iso()` output) are strings, supplied as an explicit `now`
  parameter; the random id `uuid.uuid4().hex[:8]` is an explicit `freshId`
  parameter, since both come from the environment.
* `sys.exit(1)` with a message on stderr, and uncaught exceptions, are
  modelled as the `Except.error` results of the commands; on such a result
  the file system is returned unchanged exactly when the script reached no
  `save` call.
-/

namespace Todo

/-- JSON values, as produced by Python's `json.load`. -/
inductive Json where
  | null
  | bool (b : Bool)
  | num (n : Int)
  | str (s : String)
  | arr (elems : List Json)
  | obj (fields : List (String × Json))

/-- What a file on disk looks like to `json.load`: either text that parses to
a JSON value, or text that is not valid JSON (a parse error). -/
inductive FileContent where
  | invalid
  | valid (j : Json)

/-- The file system: a map from paths to optional file contents. -/
def FS := String → Option FileContent

/-- A file system with no files. -/
def emptyFS : FS := fun _ => none

/-- Errors surfaced by the script: `parseError` for `json.load` raising on
invalid JSON, `shapeError` for the script crashing later on JSON of an
unexpected shape, `notFound` for the explicit stderr-message-and-exit-1 path
of `update`/`delete`. -/
inductive CmdErr where
  | parseError
  | shapeError
  | notFound
deriving DecidableEq, Repr

/-- `load(path)` (todo.py lines 25-29): returns `[]` if the file is absent,
otherwise the result of `json.load`, which raises on invalid JSON and
otherwise returns the parsed value with no shape validation. -/
def load (fs : FS) (path : String) : Except CmdErr Json :=
  match fs path with
  | none => .ok (.arr [])
  | some .invalid => .error .parseError
  | some (.valid j) => .ok j

/-- `save(path, todos)` (todo.py lines 32-34): overwrites the file with the
serialization of the value; by the `json` library contract the written text is
valid JSON parsing back to the same value. -/
def save (fs : FS) (path : String) (j : Json) : FS :=
  fun p => if p = path then some (.valid j) else fs p

/-- A task record: a Python dict with the nine fixed keys used by todo.py.
Timestamps are the ISO-format strings produced by `now_iso()`. -/
structure Task where
  id : String
  title : String
  description : String
  subtasks : List String
  deliverable : String
  deadline : String
  status : String
  created_at : String
  updated_at : String
deriving DecidableEq, Repr

/-- JSON object form of a task, with the key order `cmd_add` uses. -/
def encodeTask (t : Task) : Json :=
  .obj [("id", .str t.id),
        ("title", .str t.title),
        ("description", .str t.description),
        ("subtasks", .arr (t.subtasks.map .str)),
        ("deliverable", .str t.deliverable),
        ("deadline", .str t.deadline),
        ("status", .str t.status),
        ("created_at", .str t.created_at),
        ("updated_at", .str t.updated_at)]

/-- The JSON array `save` receives from every command: tasks in order. -/
def encodeTasks (ts : List Task) : Json := .arr (ts.map encodeTask)

/-- Key lookup in a JSON object, as Python's `t["key"]`. -/
def getField (fields : List (String × Json)) (key : String) : Option Json :=
  match fields with
  | [] => none
  | (k, v) :: rest => if k = key then some v else getField rest key

/-- A JSON string as a Lean string. -/
def asStr : Json → Option String
  | .str s => some s
  | _ => none

/-- A list of JSON strings as a list of Lean strings. -/
def asStrList : List Json → Option (List String)
  | [] => some []
  | j :: rest =>
    match asStr j, asStrList rest with
    | some s, some ss => some (s :: ss)
    | _, _ => none

/-- A JSON array of strings as a list of Lean strings. -/
def asSubtasks : Json → Option (List String)
  | .arr xs => asStrList xs
  | _ => none

/-- A JSON value as a task record: it must be an object whose nine task keys
are present with string (resp. string-array) values.  This is the shape the
script relies on when it indexes `t["id"]`, `t["title"]`, …. -/
def decodeTask (j : Json) : Option Task :=
  match j with
  | .obj fields =>
    match (getField fields "id").bind asStr,
          (getField fields "title").bind asStr,
          (getField fields "description").bind asStr,
          (getField fields "subtasks").bind asSubtasks,
          (getField fields "deliverable").bind asStr,
          (getField fields "deadline").bind asStr,
          (getField fields "status").bind asStr,
          (getField fields "created_at").bind asStr,
          (getField fields "updated_at").bind asStr with
    | some i, some ti, some de, some su, some dl, some dd, some st, some ca, some ua =>
      some ⟨i, ti, de, su, dl, dd, st, ca, ua⟩
    | _, _, _, _, _, _, _, _, _ => none
  | _ => none

/-- Decode every element of a JSON list as a task. -/
def decodeList : List Json → Option (List Task)
  | [] => some []
  | j :: rest =>
    match decodeTask j, decodeList rest with
    | some t, some ts => some (t :: ts)
    | _, _ => none

/-- A JSON value as a list of tasks: it must be an array of task objects. -/
def decodeTasks (j : Json) : Option (List Task) :=
  match j with
  | .arr xs => decodeList xs
  | _ => none

/-- `load` followed by reading the result as a task list, which is how every
command consumes the file; a wrong shape makes the script crash
(`shapeError`). -/
def loadTasks (fs : FS) (path : String) : Except CmdErr (List Task) :=
  match load fs path with
  | .error e => .error e
  | .ok j =>
    match decodeTasks j with
    | some ts => .ok ts
    | none => .error .shapeError

/-- `save` of a task list in its JSON form. -/
def saveTasks (fs : FS) (path : String) (ts : List Task) : FS :=
  save fs path (encodeTasks ts)

/-- The arguments `cmd_add` receives after argparse (todo.py lines 148-155):
`--title` is required to be present but argparse does not reject an empty
string; the other fields default to empty values; `--status` defaults to
"pending" and is restricted to the three enum values. -/
structure AddArgs where
  title : String
  desc : String
  subtasks : List String
  deliverable : String
  deadline : String
  status : String
deriving DecidableEq, Repr

/-- The task record built by `cmd_add` (todo.py lines 84-94): `freshId` is
`uuid.uuid4().hex[:8]` and `now` is `now_iso()`.  For strings and lists the
Python defaulting `x or ""` / `x or []` is the identity, since argparse
already supplies empty defaults. -/
def mkAddTask (args : AddArgs) (freshId now : String) : Task :=
  { id := freshId
    title := args.title
    description := args.desc
    subtasks := args.subtasks
    deliverable := args.deliverable
    deadline := args.deadline
    status := args.status
    created_at := now
    updated_at := now }

/-- `cmd_add` (todo.py lines 82-97): load, append the new task, save. -/
def cmd_add (path : String) (args : AddArgs) (freshId now : String) (fs : FS) :
    Except CmdErr Unit × FS :=
  match loadTasks fs path with
  | .error e => (.error e, fs)
  | .ok todos => (.ok (), saveTasks fs path (todos ++ [mkAddTask args freshId now]))

/-- `cmd_list` (todo.py lines 100-105): load, and when a status filter is
supplied (Python truthiness: present and non-empty) keep only the tasks whose
status equals it.  No save. -/
def cmd_list (path : String) (statusFilter : Option String) (fs : FS) :
    Except CmdErr (List Task) × FS :=
  match loadTasks fs path with
  | .error e => (.error e, fs)
  | .ok todos =>
    let shown :=
      match statusFilter with
      | some s => if s = "" then todos else todos.filter (fun t => t.status == s)
      | none => todos
    (.ok shown, fs)

/-- The arguments `cmd_update` receives after argparse (todo.py lines
163-171): every field but `--id` is optional and arrives as `None` when not
supplied; `--status` is restricted to the three enum values when supplied. -/
structure UpdateArgs where
  id : String
  title : Option String
  desc : Option String
  subtasks : Option (List String)
  deliverable : Option String
  deadline : Option String
  status : Option String
deriving DecidableEq, Repr

/-- The in-place mutation on the matched task (todo.py lines 112-124):
`title` and `status` are guarded by Python truthiness (`if args.title:`), so
`None` and the empty string both leave the field alone; the other four are
guarded by `is not None`, so an empty value overwrites; `updated_at` is set
unconditionally. -/
def applyUpdate (args : UpdateArgs) (now : String) (t0 : Task) : Task :=
  let t1 := match args.title with
            | some s => if s = "" then t0 else { t0 with title := s }
            | none => t0
  let t2 := match args.desc with
            | some s => { t1 with description := s }
            | none => t1
  let t3 := match args.subtasks with
            | some l => { t2 with subtasks := l }
            | none => t2
  let t4 := match args.deliverable with
            | some s => { t3 with deliverable := s }
            | none => t3
  let t5 := match args.deadline with
            | some s => { t4 with deadline := s }
            | none => t4
  let t6 := match args.status with
            | some s => if s = "" then t5 else { t5 with status := s }
            | none => t5
  { t6 with updated_at := now }

/-- The `for t in todos: if t["id"] == args.id: … return` loop of
`cmd_update` (todo.py lines 110-127): mutate the first task whose id matches
and stop; `none` when no task matches. -/
def updateTasks (args : UpdateArgs) (now : String) : List Task → Option (List Task)
  | [] => none
  | t :: ts =>
    if t.id = args.id then some (applyUpdate args now t :: ts)
    else (updateTasks args now ts).map (fun ts2 => t :: ts2)

/-- `cmd_update` (todo.py lines 108-129): load, mutate the first matching
task and save, or report not-found on stderr and exit 1 without saving. -/
def cmd_update (path : String) (args : UpdateArgs) (now : String) (fs : FS) :
    Except CmdErr Unit × FS :=
  match loadTasks fs path with
  | .error e => (.error e, fs)
  | .ok todos =>
    match updateTasks args now todos with
    | some todos2 => (.ok (), saveTasks fs path todos2)
    | none => (.error .notFound, fs)

/-- `cmd_delete` (todo.py lines 132-140): load, keep the tasks whose id
differs, and if the length is unchanged report not-found and exit 1 without
saving; otherwise save the filtered list. -/
def cmd_delete (path : String) (id : String) (fs : FS) :
    Except CmdErr Unit × FS :=
  match loadTasks fs path with
  | .error e => (.error e, fs)
  | .ok todos =>
    let todos2 := todos.filter (fun t => t.id != id)
    if todos2.length = todos.length then (.error .notFound, fs)
    else (.ok (), saveTasks fs path todos2)

/-! ### Timestamp comparison and concrete fixtures -/

deriving instance DecidableEq for Except

/-- Lexicographic comparison of character lists; on the fixed-width ISO-8601
UTC strings produced by `now_iso()` this is the chronological order. -/
def strLtb : List Char → List Char → Bool
  | [], [] => false
  | [], _ :: _ => true
  | _ :: _, [] => false
  | a :: as, b :: bs => if a < b then true else if b < a then false else strLtb as bs

/-- Strict chronological order on `now_iso()` timestamps. -/
def tsLt (s t : String) : Prop := strLtb s.data t.data = true

instance (s t : String) : Decidable (tsLt s t) := by
  unfold tsLt; infer_instance

/-- A task as `cmd_add` creates it at 2024-01-01T00:00:00+00:00, with the
given id and title and all optional fields at their defaults. -/
def sampleTask (i ti : String) : Task :=
  ⟨i, ti, "", [], "", "", "pending", "2024-01-01T00:00:00+00:00",
   "2024-01-01T00:00:00+00:00"⟩

/-- A store file holding two tasks that carry the same id. -/
def fsTwoDup : FS :=
  saveTasks emptyFS "todos.json"
    [sampleTask "aaaaaaaa" "first", sampleTask "aaaaaaaa" "second"]

/-- A store file holding a single task with id `deadbeef`. -/
def fsOneBeef : FS :=
  saveTasks emptyFS "todos.json" [sampleTask "deadbeef" "first"]

/-! ### Codec and store lemmas -/

theorem asStrList_map (xs : List String) : asStrList (xs.map Json.str) = some xs := by
  induction xs with
  | nil => rfl
  | cons x xs ih => simp [asStrList, asStr, ih]

theorem decodeTask_encodeTask (t : Task) : decodeTask (encodeTask t) = some t := by
  simp [decodeTask, encodeTask, getField, asStr, asSubtasks, asStrList_map]

theorem decodeList_encode (ts : List Task) : decodeList (ts.map encodeTask) = some ts := by
  induction ts with
  | nil => rfl
  | cons t ts ih => simp [decodeList, decodeTask_encodeTask, ih]

theorem load_save (fs : FS) (path : String) (j : Json) :
    load (save fs path j) path = .ok j := by
  simp [load, save]

theorem loadTasks_saveTasks (fs : FS) (path : String) (ts : List Task) :
    loadTasks (saveTasks fs path ts) path = .ok ts := by
  simp [loadTasks, saveTasks, load_save, encodeTasks, decodeTasks, decodeList_encode]

/-! ### Lemmas on the first-match update loop and on delete's filter -/

theorem updateTasks_eq_none (args : UpdateArgs) (now : String) (ts : List Task)
    (h : args.id ∉ ts.map Task.id) : updateTasks args now ts = none := by
  induction ts with
  | nil => rfl
  | cons t ts ih =>
    simp only [List.map_cons, List.mem_cons, not_or] at h
    have hne : t.id ≠ args.id := fun hc => h.1 hc.symm
    simp [updateTasks, hne, ih h.2]

theorem updateTasks_first_match (args : UpdateArgs) (now : String)
    (ts1 : List Task) (t : Task) (ts2 : List Task)
    (hid : t.id = args.id) (hnot : ∀ u ∈ ts1, u.id ≠ args.id) :
    updateTasks args now (ts1 ++ t :: ts2) =
      some (ts1 ++ applyUpdate args now t :: ts2) := by
  induction ts1 with
  | nil => simp [updateTasks, hid]
  | cons u us ih =>
    have hu : u.id ≠ args.id := hnot u (List.mem_cons_self u us)
    have ih2 := ih (fun v hv => hnot v (List.mem_cons_of_mem u hv))
    simp [updateTasks, hu, ih2]

theorem filter_id_of_not_mem (i : String) (ts : List Task)
    (h : i ∉ ts.map Task.id) : ts.filter (fun t => t.id != i) = ts := by
  induction ts with
  | nil => rfl
  | cons t ts ih =>
    simp only [List.map_cons, List.mem_cons, not_or] at h
    have hne : t.id ≠ i := fun hc => h.1 hc.symm
    simp [List.filter_cons, bne_iff_ne, hne, ih h.2]

theorem length_filter_lt_of_mem (i : String) (ts : List Task)
    (h : i ∈ ts.map Task.id) :
    (ts.filter (fun t => t.id != i)).length < ts.length := by
  induction ts with
  | nil => simp at h
  | cons t ts ih =>
    by_cases hx : t.id = i
    · have hle := List.length_filter_le (fun t => t.id != i) ts
      have hb : (t.id != i) = false := by simp [hx]
      simp only [List.filter_cons, hb, Bool.false_eq_true, if_false, List.length_cons]
      omega
    · have h2 : i ∈ ts.map Task.id := by
        simp only [List.map_cons, List.mem_cons] at h
        exact h.resolve_left (fun hc => hx hc.symm)
      have hb : (t.id != i) = true := bne_iff_ne.mpr hx
      simp only [List.filter_cons, hb, if_true, List.length_cons]
      exact Nat.succ_lt_succ (ih h2)

/-! ### Claim theorems -/

/-- C1 counterexample: on a file holding two tasks that share the id
`aaaaaaaa`, `cmd_delete` removes both — the later task with the same id is
not preserved, contradicting the claim that deletion never scans past the
first match. -/
theorem delete_scans_past_first_match_cex :
    (cmd_delete "todos.json" "aaaaaaaa" fsTwoDup).1 = .ok () ∧
    loadTasks ((cmd_delete "todos.json" "aaaaaaaa" fsTwoDup).2) "todos.json" = .ok [] ∧
    loadTasks ((cmd_delete "todos.json" "aaaaaaaa" fsTwoDup).2) "todos.json" ≠
      .ok [sampleTask "aaaaaaaa" "second"] :=
  ⟨rfl, rfl, by decide⟩

/-- C1 (amended): `cmd_delete` removes every task whose id matches — not
only the first — and preserves all tasks with a different id in their
original order; it succeeds whenever at least one task matches. -/
theorem cmd_delete_removes_every_match (fs : FS) (path i : String) (ts : List Task)
    (h : loadTasks fs path = .ok ts) (hmem : i ∈ ts.map Task.id) :
    (cmd_delete path i fs).1 = .ok () ∧
    loadTasks ((cmd_delete path i fs).2) path =
      .ok (ts.filter (fun t => t.id != i)) := by
  have hlt := length_filter_lt_of_mem i ts hmem
  have hne : (ts.filter (fun t => t.id != i)).length ≠ ts.length := Nat.ne_of_lt hlt
  simp only [cmd_delete, h, hne, if_false]
  exact ⟨trivial, loadTasks_saveTasks _ _ _⟩

/-- Witness for C1's amended theorem at the duplicate-id file. -/
theorem cmd_delete_removes_every_match_witness :
    (cmd_delete "todos.json" "aaaaaaaa" fsTwoDup).1 = .ok () ∧
    loadTasks ((cmd_delete "todos.json" "aaaaaaaa" fsTwoDup).2) "todos.json" =
      .ok ([sampleTask "aaaaaaaa" "first", sampleTask "aaaaaaaa" "second"].filter
        (fun t => t.id != "aaaaaaaa")) :=
  cmd_delete_removes_every_match fsTwoDup "todos.json" "aaaaaaaa"
    [sampleTask "aaaaaaaa" "first", sampleTask "aaaaaaaa" "second"] rfl (by decide)

/-- C2 counterexample: `cmd_add` performs no uniqueness check, so when the
random generator happens to return an id already present (`deadbeef`), the
resulting file holds two tasks with the same id. -/
theorem add_id_collision_cex :
    loadTasks ((cmd_add "todos.json" ⟨"second", "", [], "", "", "pending"⟩
        "deadbeef" "2024-01-02T00:00:00+00:00" fsOneBeef).2) "todos.json" =
      .ok [sampleTask "deadbeef" "first",
           mkAddTask ⟨"second", "", [], "", "", "pending"⟩ "deadbeef"
             "2024-01-02T00:00:00+00:00"] ∧
    ¬ ([sampleTask "deadbeef" "first",
        mkAddTask ⟨"second", "", [], "", "", "pending"⟩ "deadbeef"
          "2024-01-02T00:00:00+00:00"].map Task.id).Nodup :=
  ⟨rfl, by decide⟩

/-- C2 (amended): `cmd_add` appends a task carrying the id drawn from the
random generator without checking it against the file; id uniqueness is
preserved exactly under the assumption that the drawn id differs from every
stored id — collisions are improbable but not prevented. -/
theorem cmd_add_preserves_unique_ids (fs : FS) (path : String) (args : AddArgs)
    (freshId now : String) (ts : List Task)
    (h : loadTasks fs path = .ok ts)
    (hfresh : freshId ∉ ts.map Task.id)
    (hnd : (ts.map Task.id).Nodup) :
    loadTasks ((cmd_add path args freshId now fs).2) path =
      .ok (ts ++ [mkAddTask args freshId now]) ∧
    ((ts ++ [mkAddTask args freshId now]).map Task.id).Nodup := by
  constructor
  · simp only [cmd_add, h]
    exact loadTasks_saveTasks _ _ _
  · simp only [List.map_append, List.map_cons, List.map_nil]
    rw [List.nodup_append]
    refine ⟨hnd, List.nodup_singleton _, ?_⟩
    intro x hx hx1
    simp only [mkAddTask, List.mem_singleton] at hx1
    exact hfresh (hx1 ▸ hx)

/-- Witness for C2's amended theorem: adding with a fresh id keeps ids
unique. -/
theorem cmd_add_preserves_unique_ids_witness :
    loadTasks ((cmd_add "todos.json" ⟨"second", "", [], "", "", "pending"⟩
        "11111111" "2024-01-02T00:00:00+00:00" fsOneBeef).2) "todos.json" =
      .ok ([sampleTask "deadbeef" "first"] ++
        [mkAddTask ⟨"second", "", [], "", "", "pending"⟩ "11111111"
          "2024-01-02T00:00:00+00:00"]) ∧
    (([sampleTask "deadbeef" "first"] ++
      [mkAddTask ⟨"second", "", [], "", "", "pending"⟩ "11111111"
        "2024-01-02T00:00:00+00:00"]).map Task.id).Nodup :=
  cmd_add_preserves_unique_ids fsOneBeef "todos.json"
    ⟨"second", "", [], "", "", "pending"⟩ "11111111" "2024-01-02T00:00:00+00:00"
    [sampleTask "deadbeef" "first"] rfl (by decide) (by decide)

/-- C3 (confirmed): when the id is absent from the file, `cmd_update` and
`cmd_delete` both return the not-found error (stderr message and exit code 1
in the script) and the final file system is the input file system itself —
no save call is reached, so the backing file is byte-for-byte unchanged. -/
theorem notfound_leaves_file_unchanged (fs : FS) (path : String)
    (args : UpdateArgs) (now : String) (ts : List Task)
    (h : loadTasks fs path = .ok ts) (habs : args.id ∉ ts.map Task.id) :
    cmd_update path args now fs = (.error .notFound, fs) ∧
    cmd_delete path args.id fs = (.error .notFound, fs) := by
  constructor
  · simp only [cmd_update, h, updateTasks_eq_none args now ts habs]
  · simp [cmd_delete, h, filter_id_of_not_mem args.id ts habs]

/-- Witness for C3 at a concrete file and an id not stored in it. -/
theorem notfound_leaves_file_unchanged_witness :
    cmd_update "todos.json" ⟨"absent00", none, none, none, none, none, some "done"⟩
      "2024-01-02T00:00:00+00:00" fsOneBeef = (.error .notFound, fsOneBeef) ∧
    cmd_delete "todos.json" "absent00" fsOneBeef = (.error .notFound, fsOneBeef) :=
  notfound_leaves_file_unchanged fsOneBeef "todos.json"
    ⟨"absent00", none, none, none, none, none, some "done"⟩
    "2024-01-02T00:00:00+00:00" [sampleTask "deadbeef" "first"] rfl (by decide)

/-- Update arguments supplying only `--status done`, as in
`todo.py update --id I --status done`. -/
def statusDoneArgs (i : String) : UpdateArgs :=
  ⟨i, none, none, none, none, none, some "done"⟩

/-- The effect of a status-only update on the matched task: only `status`
and `updated_at` change. -/
theorem applyUpdate_statusOnly (i s now : String) (t : Task) (hs : s ≠ "") :
    applyUpdate ⟨i, none, none, none, none, none, some s⟩ now t =
      { t with status := s, updated_at := now } := by
  simp [applyUpdate, hs]

/-- The task of `fsOneBeef` after a status-only update to `done` stamped at
the given time. -/
def beefDone (ua : String) : Task :=
  { sampleTask "deadbeef" "first" with status := "done", updated_at := ua }

/-- C4 counterexample: `now_iso()` has one-second resolution, so an update
performed in the same second as the task's previous mutation stores an
`updated_at` equal to — not strictly greater than — the previous one. -/
theorem update_same_second_timestamp_cex :
    loadTasks ((cmd_update "todos.json" (statusDoneArgs "deadbeef")
        "2024-01-01T00:00:00+00:00" fsOneBeef).2) "todos.json" =
      .ok [beefDone "2024-01-01T00:00:00+00:00"] ∧
    (beefDone "2024-01-01T00:00:00+00:00").updated_at =
      (sampleTask "deadbeef" "first").updated_at ∧
    ¬ tsLt (sampleTask "deadbeef" "first").updated_at
        (beefDone "2024-01-01T00:00:00+00:00").updated_at :=
  ⟨rfl, rfl, by decide⟩

/-- C4 (amended): a status-only update on the first task matching the id
leaves title, description, subtasks, deliverable, deadline and created_at
unchanged and sets `updated_at` to the current time; that timestamp is
strictly greater than the previous one whenever the current time is strictly
later (two mutations within the same second yield equal timestamps). -/
theorem update_status_only_frame (fs : FS) (path : String)
    (ts1 ts2 : List Task) (t : Task) (s now : String)
    (h : loadTasks fs path = .ok (ts1 ++ t :: ts2))
    (hnot : ∀ u ∈ ts1, u.id ≠ t.id) (hs : s ≠ "") :
    (cmd_update path ⟨t.id, none, none, none, none, none, some s⟩ now fs).1 = .ok () ∧
    loadTasks ((cmd_update path ⟨t.id, none, none, none, none, none, some s⟩
        now fs).2) path =
      .ok (ts1 ++ { t with status := s, updated_at := now } :: ts2) ∧
    (tsLt t.updated_at now →
      tsLt t.updated_at
        ({ t with status := s, updated_at := now } : Task).updated_at) := by
  have hupd := updateTasks_first_match
    ⟨t.id, none, none, none, none, none, some s⟩ now ts1 t ts2 rfl hnot
  rw [applyUpdate_statusOnly t.id s now t hs] at hupd
  simp only [cmd_update, h, hupd]
  exact ⟨trivial, loadTasks_saveTasks _ _ _, fun hlt => hlt⟩

/-- Witness for C4's amended theorem: updating one second later makes
`updated_at` strictly greater. -/
theorem update_status_only_frame_witness :
    (cmd_update "todos.json" ⟨"deadbeef", none, none, none, none, none, some "done"⟩
      "2024-01-01T00:00:01+00:00" fsOneBeef).1 = .ok () ∧
    loadTasks ((cmd_update "todos.json"
        ⟨"deadbeef", none, none, none, none, none, some "done"⟩
        "2024-01-01T00:00:01+00:00" fsOneBeef).2) "todos.json" =
      .ok ([] ++ beefDone "2024-01-01T00:00:01+00:00" :: []) ∧
    (tsLt (sampleTask "deadbeef" "first").updated_at "2024-01-01T00:00:01+00:00" →
      tsLt (sampleTask "deadbeef" "first").updated_at
        (beefDone "2024-01-01T00:00:01+00:00").updated_at) :=
  update_status_only_frame fsOneBeef "todos.json" [] []
    (sampleTask "deadbeef" "first") "done" "2024-01-01T00:00:01+00:00" rfl
    (by simp) (by decide)

/-- C5 (confirmed): on the task found by update, fields guarded by
`is not None` (description, subtasks, deliverable, deadline) are overwritten
even by an empty value, while fields guarded by Python truthiness (title,
status) are left unchanged by an empty value and replaced only by a
non-empty one; unsupplied fields are always left unchanged. -/
theorem update_supplied_vs_empty_semantics (t : Task) (now s : String) :
    (applyUpdate ⟨t.id, some "", some "", some [], some "", some "", some ""⟩ now t =
      { t with
        description := "", subtasks := [], deliverable := "",
        deadline := "", updated_at := now }) ∧
    (applyUpdate ⟨t.id, none, none, none, none, none, none⟩ now t =
      { t with updated_at := now }) ∧
    (s ≠ "" → applyUpdate ⟨t.id, some s, none, none, none, none, some s⟩ now t =
      { t with title := s, status := s, updated_at := now }) :=
  ⟨by simp [applyUpdate], by simp [applyUpdate],
   fun hs => by simp [applyUpdate, hs]⟩

/-- Witness for C5 at a concrete task: a non-empty title and status replace
the stored values. -/
theorem update_supplied_vs_empty_semantics_witness :
    applyUpdate ⟨(sampleTask "deadbeef" "first").id, some "new", none, none, none,
        none, some "new"⟩ "2024-01-02T00:00:00+00:00" (sampleTask "deadbeef" "first") =
      { sampleTask "deadbeef" "first" with
        title := "new", status := "new",
        updated_at := "2024-01-02T00:00:00+00:00" } :=
  (update_supplied_vs_empty_semantics (sampleTask "deadbeef" "first")
    "2024-01-02T00:00:00+00:00" "new").2.2 (by decide)

/-- A store file whose content is valid JSON but not an array of task
objects (the JSON number 5). -/
def fsWrongShape : FS :=
  fun p => if p = "todos.json" then some (.valid (.num 5)) else none

/-- C6 counterexample: `json.load` performs no shape validation, so on a
file holding the JSON number 5 — valid JSON that is not an array of task
objects — `load` succeeds and returns the value instead of failing. -/
theorem load_wrong_shape_cex :
    load fsWrongShape "todos.json" = .ok (.num 5) ∧
    decodeTasks (.num 5) = none :=
  ⟨rfl, rfl⟩

/-- C6 (amended): `load` returns the empty array when the file is absent and
fails with a parse error exactly when the file exists but its content is not
valid JSON; valid JSON of any shape is returned as parsed, with no shape
validation. -/
theorem load_error_iff_invalid_json (fs : FS) (path : String) :
    (fs path = none → load fs path = .ok (.arr [])) ∧
    (load fs path = .error .parseError ↔ fs path = some .invalid) ∧
    (∀ j, fs path = some (.valid j) → load fs path = .ok j) := by
  refine ⟨fun h => by simp [load, h], ?_, fun j h => by simp [load, h]⟩
  cases hfp : fs path with
  | none => simp [load, hfp]
  | some fc => cases fc with
    | invalid => simp [load, hfp]
    | valid j => simp [load, hfp]

/-- Witness for C6's amended theorem: loading an absent file yields the
empty array. -/
theorem load_error_iff_invalid_json_witness :
    load emptyFS "todos.json" = .ok (.arr []) :=
  (load_error_iff_invalid_json emptyFS "todos.json").1 rfl

/-- C7 (confirmed): saving any task sequence and loading it back from the
same path yields the same task sequence — the JSON encoding of tasks
round-trips. -/
theorem save_then_load_roundtrip (fs : FS) (path : String) (ts : List Task) :
    loadTasks (saveTasks fs path ts) path = .ok ts :=
  loadTasks_saveTasks fs path ts

/-- A store file holding one pending task and one done task. -/
def fsMixed : FS :=
  saveTasks emptyFS "todos.json"
    [sampleTask "aaaa0001" "one", { sampleTask "aaaa0002" "two" with status := "done" }]

/-- C8 (confirmed): `cmd_list` with a status filter returns exactly the
tasks whose stored status equals the filter, as a sublist of the unfiltered
list (so in insertion order), and returns the file system unchanged — no
save call exists on any path of `cmd_list`. -/
theorem cmd_list_filter_spec (fs : FS) (path s : String) (ts : List Task)
    (h : loadTasks fs path = .ok ts) (hs : s ≠ "") :
    (cmd_list path (some s) fs).1 = .ok (ts.filter (fun t => t.status == s)) ∧
    List.Sublist (ts.filter (fun t => t.status == s)) ts ∧
    (∀ t ∈ ts.filter (fun t => t.status == s), t.status = s) ∧
    (cmd_list path (some s) fs).2 = fs := by
  refine ⟨by simp [cmd_list, h, hs], List.filter_sublist ts, ?_, by simp [cmd_list, h]⟩
  intro t ht
  rw [List.mem_filter] at ht
  exact eq_of_beq ht.2

/-- Witness for C8 on a file with one pending and one done task, filtering
for `done`. -/
theorem cmd_list_filter_spec_witness :
    (cmd_list "todos.json" (some "done") fsMixed).1 =
      .ok ([sampleTask "aaaa0001" "one",
            { sampleTask "aaaa0002" "two" with status := "done" }].filter
              (fun t => t.status == "done")) ∧
    List.Sublist ([sampleTask "aaaa0001" "one",
        { sampleTask "aaaa0002" "two" with status := "done" }].filter
          (fun t => t.status == "done"))
      [sampleTask "aaaa0001" "one",
       { sampleTask "aaaa0002" "two" with status := "done" }] ∧
    (∀ t ∈ [sampleTask "aaaa0001" "one",
        { sampleTask "aaaa0002" "two" with status := "done" }].filter
          (fun t => t.status == "done"), t.status = "done") ∧
    (cmd_list "todos.json" (some "done") fsMixed).2 = fsMixed :=
  cmd_list_filter_spec fsMixed "todos.json" "done"
    [sampleTask "aaaa0001" "one", { sampleTask "aaaa0002" "two" with status := "done" }]
    rfl (by decide)

/-- C9 counterexample: argparse only requires `--title` to be present, not
non-empty, so `add --title ""` is accepted and stores a task whose title is
the empty string. -/
theorem add_empty_title_cex :
    loadTasks ((cmd_add "todos.json" ⟨"", "", [], "", "", "pending"⟩ "abcd1234"
        "2024-01-01T00:00:00+00:00" emptyFS).2) "todos.json" =
      .ok [mkAddTask ⟨"", "", [], "", "", "pending"⟩ "abcd1234"
        "2024-01-01T00:00:00+00:00"] ∧
    (mkAddTask ⟨"", "", [], "", "", "pending"⟩ "abcd1234"
      "2024-01-01T00:00:00+00:00").title = "" :=
  ⟨rfl, rfl⟩

/-- C9 (amended): `cmd_add` stores the supplied title verbatim — the stored
title equals the `--title` argument, which argparse requires to be present
but never checks for non-emptiness, so an empty title can be stored. -/
theorem cmd_add_stores_title_verbatim (fs : FS) (path : String) (args : AddArgs)
    (freshId now : String) (ts : List Task) (h : loadTasks fs path = .ok ts) :
    loadTasks ((cmd_add path args freshId now fs).2) path =
      .ok (ts ++ [mkAddTask args freshId now]) ∧
    (mkAddTask args freshId now).title = args.title :=
  ⟨by simp only [cmd_add, h]; exact loadTasks_saveTasks _ _ _, rfl⟩

/-- Witness for C9's amended theorem on an empty store. -/
theorem cmd_add_stores_title_verbatim_witness :
    loadTasks ((cmd_add "todos.json" ⟨"Buy milk", "", [], "", "", "pending"⟩
        "abcd1234" "2024-01-01T00:00:00+00:00" emptyFS).2) "todos.json" =
      .ok ([] ++ [mkAddTask ⟨"Buy milk", "", [], "", "", "pending"⟩ "abcd1234"
        "2024-01-01T00:00:00+00:00"]) ∧
    (mkAddTask ⟨"Buy milk", "", [], "", "", "pending"⟩ "abcd1234"
      "2024-01-01T00:00:00+00:00").title = "Buy milk" :=
  cmd_add_stores_title_verbatim emptyFS "todos.json"
    ⟨"Buy milk", "", [], "", "", "pending"⟩ "abcd1234"
    "2024-01-01T00:00:00+00:00" [] rfl

/-- The mutation of an update that supplies no optional field: only
`updated_at` changes. -/
theorem applyUpdate_all_none (i now : String) (t : Task) :
    applyUpdate ⟨i, none, none, none, none, none, none⟩ now t =
      { t with updated_at := now } := by
  simp [applyUpdate]

/-- C10 (confirmed): an update that supplies an existing id and no optional
field at all still succeeds, still calls `save` (the file is rewritten), and
the only change to any task is that the matched task's `updated_at` becomes
the current time. -/
theorem cmd_update_no_fields_spec (fs : FS) (path : String)
    (ts1 ts2 : List Task) (t : Task) (now : String)
    (h : loadTasks fs path = .ok (ts1 ++ t :: ts2))
    (hnot : ∀ u ∈ ts1, u.id ≠ t.id) :
    (cmd_update path ⟨t.id, none, none, none, none, none, none⟩ now fs).1 = .ok () ∧
    (cmd_update path ⟨t.id, none, none, none, none, none, none⟩ now fs).2 =
      saveTasks fs path (ts1 ++ { t with updated_at := now } :: ts2) ∧
    loadTasks ((cmd_update path ⟨t.id, none, none, none, none, none, none⟩
        now fs).2) path =
      .ok (ts1 ++ { t with updated_at := now } :: ts2) := by
  have hupd := updateTasks_first_match
    ⟨t.id, none, none, none, none, none, none⟩ now ts1 t ts2 rfl hnot
  rw [applyUpdate_all_none t.id now t] at hupd
  simp only [cmd_update, h, hupd]
  exact ⟨trivial, trivial, loadTasks_saveTasks _ _ _⟩

/-- Witness for C10 on the one-task store. -/
theorem cmd_update_no_fields_spec_witness :
    (cmd_update "todos.json" ⟨"deadbeef", none, none, none, none, none, none⟩
      "2024-01-02T00:00:00+00:00" fsOneBeef).1 = .ok () ∧
    (cmd_update "todos.json" ⟨"deadbeef", none, none, none, none, none, none⟩
      "2024-01-02T00:00:00+00:00" fsOneBeef).2 =
      saveTasks fsOneBeef "todos.json"
        ([] ++ { sampleTask "deadbeef" "first" with
                 updated_at := "2024-01-02T00:00:00+00:00" } :: []) ∧
    loadTasks ((cmd_update "todos.json"
        ⟨"deadbeef", none, none, none, none, none, none⟩
        "2024-01-02T00:00:00+00:00" fsOneBeef).2) "todos.json" =
      .ok ([] ++ { sampleTask "deadbeef" "first" with
                   updated_at := "2024-01-02T00:00:00+00:00" } :: []) :=
  cmd_update_no_fields_spec fsOneBeef "todos.json" [] []
    (sampleTask "deadbeef" "first") "2024-01-02T00:00:00+00:00" rfl (by simp)

end Todo
